import Mathlib

/-!
Verification of the apts TFTP server (Python) against its natural-language
specification.

The development shallowly embeds the relevant source modules:

* `apts/netascii.py`  — `encode` / `decode` regex substitutions over bytes;
* `apts/packets.py`   — the five packet classes, `to_wire` / `from_wire`,
  and `PacketFactory.create`;
* `apts/file_rw.py`   — `TftpFileReader` / `TftpFileWriter` block framing;
* `apts/session.py`   — `TftpSessionThread` per-datagram handling,
  retransmission schedule, and the `respond_to_*` handlers.

Bytes are modelled as `List Nat` (each element a byte value), Python
exceptions as an explicit `Except` error channel (`PyExc`), and the
filesystem / `os.path.realpath` as an oracle structure (`Fs`).  Python file
objects are modelled by explicit state records holding the not-yet-read file
suffix resp. the bytes written so far.
-/

namespace Apts

/-! ## netascii.py -/

/-- The platform line separator `os.linesep`, which on the platforms the
package declares (Linux, Windows) is either `b'\n'` or `b'\r\n'`. -/
inductive LineSep
  | lf
  | crlf
deriving DecidableEq

/-- The byte sequence of a line separator. -/
def LineSep.bytes : LineSep → List Nat
  | .lf => [10]
  | .crlf => [13, 10]

/-- `netascii.encode(bdata)` for `line_seperator = '\n'`: the regex
`(\n|\r)` substituted left to right, `\n ↦ CR LF` and `\r ↦ CR NUL`. -/
def encodeLF : List Nat → List Nat
  | [] => []
  | c :: rest =>
    if c = 10 then 13 :: 10 :: encodeLF rest
    else if c = 13 then 13 :: 0 :: encodeLF rest
    else c :: encodeLF rest

/-- `netascii.encode(bdata)` for `line_seperator = '\r\n'`: the regex
`(\r\n|\r)` substituted left to right; the alternation tries the full
`\r\n` before the lone `\r`, so `\r\n ↦ CR LF` (unchanged) and a `\r` not
followed by `\n` maps to `CR NUL`.  A bare `\n` is not matched. -/
def encodeCRLF : List Nat → List Nat
  | [] => []
  | [c] => if c = 13 then [13, 0] else [c]
  | c1 :: c2 :: rest =>
    if c1 = 13 ∧ c2 = 10 then 13 :: 10 :: encodeCRLF rest
    else if c1 = 13 then 13 :: 0 :: encodeCRLF (c2 :: rest)
    else c1 :: encodeCRLF (c2 :: rest)

/-- `netascii.encode` with the host line separator as parameter (the source
builds the regex `({line_seperator}|\r)` from it; these are its two
instantiations at the possible `os.linesep` values). -/
def encode : LineSep → List Nat → List Nat
  | .lf => encodeLF
  | .crlf => encodeCRLF

/-- `netascii.decode(bdata, line_seperator)`: the regex `(\r\n|\r\x00)`
substituted left to right, `CR LF ↦ line_seperator` and `CR NUL ↦ \r`. -/
def decode (nl : LineSep) : List Nat → List Nat
  | [] => []
  | [c] => [c]
  | c1 :: c2 :: rest =>
    if c1 = 13 ∧ c2 = 10 then nl.bytes ++ decode nl rest
    else if c1 = 13 ∧ c2 = 0 then 13 :: decode nl rest
    else c1 :: decode nl (c2 :: rest)

theorem decode_crlf_cons (nl : LineSep) (l : List Nat) :
    decode nl (13 :: 10 :: l) = nl.bytes ++ decode nl l := by
  simp [decode]

theorem decode_crnul_cons (nl : LineSep) (l : List Nat) :
    decode nl (13 :: 0 :: l) = 13 :: decode nl l := by
  simp [decode]

theorem decode_cons_of_ne (nl : LineSep) {c : Nat} (h : c ≠ 13) (l : List Nat) :
    decode nl (c :: l) = c :: decode nl l := by
  cases l with
  | nil => simp [decode]
  | cons d rest => simp [decode, h]

theorem decode_encodeLF : ∀ x : List Nat, decode .lf (encodeLF x) = x
  | [] => by simp [encodeLF, decode]
  | c :: rest => by
    by_cases h10 : c = 10
    · subst h10
      rw [show encodeLF (10 :: rest) = 13 :: 10 :: encodeLF rest by
          simp [encodeLF], decode_crlf_cons]
      simp [LineSep.bytes, decode_encodeLF rest]
    · by_cases h13 : c = 13
      · subst h13
        rw [show encodeLF (13 :: rest) = 13 :: 0 :: encodeLF rest by
            simp [encodeLF], decode_crnul_cons]
        simp [decode_encodeLF rest]
      · rw [show encodeLF (c :: rest) = c :: encodeLF rest by
            simp [encodeLF, h10, h13], decode_cons_of_ne _ h13]
        simp [decode_encodeLF rest]

theorem decode_encodeCRLF : ∀ x : List Nat, decode .crlf (encodeCRLF x) = x
  | [] => by simp [encodeCRLF, decode]
  | [c] => by
    by_cases h13 : c = 13
    · subst h13
      rw [show encodeCRLF [13] = [13, 0] by simp [encodeCRLF],
        decode_crnul_cons]
      simp [decode]
    · rw [show encodeCRLF [c] = [c] by simp [encodeCRLF, h13]]
      simp [decode]
  | c1 :: c2 :: rest => by
    by_cases h : c1 = 13 ∧ c2 = 10
    · obtain ⟨h1, h2⟩ := h
      subst h1; subst h2
      rw [show encodeCRLF (13 :: 10 :: rest) = 13 :: 10 :: encodeCRLF rest by
          simp [encodeCRLF], decode_crlf_cons]
      simp [LineSep.bytes, decode_encodeCRLF rest]
    · by_cases h13 : c1 = 13
      · subst h13
        have h2 : c2 ≠ 10 := fun hc => h ⟨rfl, hc⟩
        rw [show encodeCRLF (13 :: c2 :: rest) = 13 :: 0 :: encodeCRLF (c2 :: rest) by
            simp [encodeCRLF, h2], decode_crnul_cons]
        simp [decode_encodeCRLF (c2 :: rest)]
      · rw [show encodeCRLF (c1 :: c2 :: rest) = c1 :: encodeCRLF (c2 :: rest) by
            simp [encodeCRLF, h, h13], decode_cons_of_ne _ h13]
        simp [decode_encodeCRLF (c2 :: rest)]

/-- C5: Netascii round-trip: for every byte sequence `x` and every host
newline `nl ∈ {LF, CRLF}` (encoder giving the host-newline alternative
priority over the lone-CR alternative, decoder inverting both
replacements), `decode (encode x) = x`. -/
theorem netascii_roundtrip (nl : LineSep) (x : List Nat) :
    decode nl (encode nl x) = x := by
  cases nl with
  | lf => exact decode_encodeLF x
  | crlf => exact decode_encodeCRLF x

/-! ## errors.py — the exception taxonomy, as seen by the session

`PacketParseError` and its subclasses are the only exceptions the session's
`respond_to_data` catches.  Everything else escapes the thread's `run`
method uncaught.  `raise InvalidOpcodeError` (packets.py line 253) raises
the class itself; instantiating it lacks the constructor's required
`opcode` argument, so Python actually raises `TypeError` there — modelled
by `PyExc.typeError`, outside the caught family. -/

/-- The `PacketParseError` subclasses that parsing can actually raise. -/
inductive ParseKind
  | opcodeExtract
  | payloadParse
  | unsupportedMode
  | dataSize
  | invalidErrorcode
deriving DecidableEq

/-- A Python exception escaping one of the modelled operations. -/
inductive PyExc
  /-- a `PacketParseError` subclass (caught by the session). -/
  | packetParse : ParseKind → PyExc
  /-- `TypeError`: raising the `InvalidOpcodeError` class without its
  required argument, or `b''.join` over a `str` member. -/
  | typeError
  /-- `struct.error`: packing an integer outside the `!H` range. -/
  | structError
  /-- `AttributeError`: method call on a `None` file reader/writer. -/
  | attributeError
  /-- `IndexError`: `timeout_values[retransmissions]` out of range. -/
  | indexError
  /-- `TftpIOError`: read/write on a closed `TftpFile` handle (note this
  class inherits from `Exception`, not from `IOError`). -/
  | tftpIOError
deriving DecidableEq

/-! ## packets.py -/

/-- A Python value that is either `bytes` or `str`.  `ErrorPacket.error_msg`
is `bytes` when parsed from the wire but a `str` (a value of the default
`errors` message table) when the packet is built without an explicit
message. -/
inductive PyBytesOrStr
  | bytes : List Nat → PyBytesOrStr
  | str : String → PyBytesOrStr
deriving DecidableEq

/-- The five TFTP packet shapes (`RRQPacket`, `WRQPacket`, `DataPacket`,
`ACKPacket`, `ErrorPacket`).  `is_last` of `DataPacket` is derived from the
data length and not stored. -/
inductive TftpPacket
  | rrq (filename mode : List Nat)
  | wrq (filename mode : List Nat)
  | data (blockn : Nat) (dat : List Nat)
  | ack (blockn : Nat)
  | error (error_code : Nat) (error_msg : PyBytesOrStr)
deriving DecidableEq

/-- `DataPacket.is_last`: fewer than 512 data bytes. -/
def TftpPacket.is_last : TftpPacket → Bool
  | .data _ d => d.length < 512
  | _ => false

/-- Byte values of an ASCII string literal. -/
def bytesOfAscii (s : String) : List Nat :=
  s.data.map Char.toNat

/-- `bytes.lower()`: lower-case the ASCII letters A–Z. -/
def pyLower (l : List Nat) : List Nat :=
  l.map fun b => if 65 ≤ b ∧ b ≤ 90 then b + 32 else b

/-- `struct.pack('!H', n)`: two big-endian bytes; `struct.error` outside
the 16-bit range. -/
def pack16 (n : Nat) : Except PyExc (List Nat) :=
  if n < 65536 then .ok [n / 256, n % 256] else .error .structError

/-- `struct.unpack('!H', bytes([hi, lo]))[0]`. -/
def unpack16 (hi lo : Nat) : Nat := hi * 256 + lo

/-- `bytes.split(sep)` for a one-byte separator: Python splits at every
occurrence and always returns at least one (possibly empty) token. -/
def pySplit (sep : Nat) : List Nat → List (List Nat)
  | [] => [[]]
  | c :: rest =>
    if c = sep then [] :: pySplit sep rest
    else
      match pySplit sep rest with
      | t :: ts => (c :: t) :: ts
      | [] => [[c]]

/-- `RQPacket.__init__`: lower-case the mode, reject anything other than
`b'netascii'` / `b'octet'` with `UnsupportedModeError`.  `opcode` is 1 for
`RRQPacket` and 2 for `WRQPacket`. -/
def RQPacket_init (opcode : Nat) (filename mode : List Nat) :
    Except PyExc TftpPacket :=
  let m := pyLower mode
  if m = bytesOfAscii "netascii" ∨ m = bytesOfAscii "octet" then
    .ok (if opcode = 1 then .rrq filename m else .wrq filename m)
  else .error (.packetParse .unsupportedMode)

/-- `DataPacket.__init__`: more than 512 data bytes raise
`DataSizeError`. -/
def DataPacket_init (blockn : Nat) (dat : List Nat) :
    Except PyExc TftpPacket :=
  if dat.length > 512 then .error (.packetParse .dataSize)
  else .ok (.data blockn dat)

/-- The `ErrorPacket.errors` table of default messages. -/
def defaultErrorMsg : Nat → String
  | 0 => "Not defined, see error message (if any)"
  | 1 => "File not found"
  | 2 => "Access violation"
  | 3 => "Disk full or allocation exceeded"
  | 4 => "Illegal TFTP operation"
  | 5 => "Unknown transfer ID"
  | 6 => "File already exists"
  | 7 => "No such user"
  | _ => ""

/-- `ErrorPacket.__init__`: a code outside the `errors` table keys (0–7)
raises `InvalidErrorcodeError`; with no explicit message the packet stores
the default table entry, which is a `str`, not `bytes`. -/
def ErrorPacket_init (error_code : Nat) (error_msg : Option (List Nat)) :
    Except PyExc TftpPacket :=
  if error_code ≤ 7 then
    .ok (.error error_code
      (match error_msg with
       | none => .str (defaultErrorMsg error_code)
       | some m => .bytes m))
  else .error (.packetParse .invalidErrorcode)

/-- `to_wire` of each packet class.  `b''.join` over a tuple containing a
`str` member (an `ErrorPacket` default message) raises `TypeError`. -/
def TftpPacket.to_wire : TftpPacket → Except PyExc (List Nat)
  | .rrq f m => do
    let ob ← pack16 1
    .ok (ob ++ f ++ [0] ++ m ++ [0])
  | .wrq f m => do
    let ob ← pack16 2
    .ok (ob ++ f ++ [0] ++ m ++ [0])
  | .data b d => do
    let ob ← pack16 3
    let bb ← pack16 b
    .ok (ob ++ bb ++ d)
  | .ack b => do
    let ob ← pack16 4
    let bb ← pack16 b
    .ok (ob ++ bb)
  | .error c msg => do
    let ob ← pack16 5
    let cb ← pack16 c
    match msg with
    | .bytes m => .ok (ob ++ cb ++ m ++ [0])
    | .str _ => .error .typeError

/-- `RQPacket.from_wire`: split the payload on NUL; fewer than two tokens
raise `PayloadParseError`; otherwise tokens 0 and 1 are filename and
mode. -/
def RQPacket_from_wire (opcode : Nat) (payload : List Nat) :
    Except PyExc TftpPacket :=
  match pySplit 0 payload with
  | t0 :: t1 :: _ => RQPacket_init opcode t0 t1
  | _ => .error (.packetParse .payloadParse)

/-- `DataPacket.from_wire`: the first two payload bytes are the block
number (`PayloadParseError` if fewer), the rest the data. -/
def DataPacket_from_wire (payload : List Nat) : Except PyExc TftpPacket :=
  match payload with
  | b0 :: b1 :: rest => DataPacket_init (unpack16 b0 b1) rest
  | _ => .error (.packetParse .payloadParse)

/-- `ACKPacket.from_wire`: `struct.unpack('!H', payload)` demands exactly
two bytes. -/
def ACKPacket_from_wire (payload : List Nat) : Except PyExc TftpPacket :=
  match payload with
  | [b0, b1] => .ok (.ack (unpack16 b0 b1))
  | _ => .error (.packetParse .payloadParse)

/-- `ErrorPacket.from_wire`: the first two payload bytes are the error code
(`PayloadParseError` if fewer); the message is the remainder up to the
first NUL. -/
def ErrorPacket_from_wire (payload : List Nat) : Except PyExc TftpPacket :=
  match payload with
  | b0 :: b1 :: rest =>
    ErrorPacket_init (unpack16 b0 b1) (some ((pySplit 0 rest).headI))
  | _ => .error (.packetParse .payloadParse)

/-- `PacketFactory.create`: extract the big-endian opcode from the first
two bytes (`OpcodeExtractError` if fewer than two), then dispatch through
`packet_pool`.  On an opcode outside 1–5 the `KeyError` handler executes
`raise InvalidOpcodeError` — raising the class, whose instantiation is
missing the required `opcode` argument, so the escaping exception is in
fact a `TypeError`. -/
def create (data : List Nat) : Except PyExc TftpPacket :=
  match data with
  | b0 :: b1 :: payload =>
    let opcode := unpack16 b0 b1
    if opcode = 1 then RQPacket_from_wire 1 payload
    else if opcode = 2 then RQPacket_from_wire 2 payload
    else if opcode = 3 then DataPacket_from_wire payload
    else if opcode = 4 then ACKPacket_from_wire payload
    else if opcode = 5 then ErrorPacket_from_wire payload
    else .error .typeError
  | _ => .error (.packetParse .opcodeExtract)

/-- Well-formedness of a packet, per claim C1: all fields within their
declared bounds (byte values below 256, block numbers and error codes in
u16 range resp. the 0–7 table, at most 512 data bytes), the mode already
canonical lower-case, filename and message NUL-free `bytes`. -/
def wellFormed : TftpPacket → Bool
  | .rrq f m | .wrq f m =>
    f.all (fun b => b ≠ 0 ∧ b < 256) ∧
      (m = bytesOfAscii "netascii" ∨ m = bytesOfAscii "octet")
  | .data b d => b < 65536 ∧ d.length ≤ 512 ∧ d.all (· < 256)
  | .ack b => b < 65536
  | .error c msg =>
    match msg with
    | .bytes m => c ≤ 7 ∧ m.all (fun b => b ≠ 0 ∧ b < 256)
    | .str _ => False

theorem pySplit_sepfree_append {f : List Nat} (hf : ∀ b ∈ f, b ≠ 0)
    (r : List Nat) : pySplit 0 (f ++ 0 :: r) = f :: pySplit 0 r := by
  induction f with
  | nil => simp [pySplit]
  | cons c cs ih =>
    have hc : c ≠ 0 := hf c (by simp)
    have ih' := ih fun b hb => hf b (by simp [hb])
    simp only [List.cons_append, pySplit, hc, if_false, List.append_eq, ih']

theorem pack16_lt {n : Nat} (h : n < 65536) :
    pack16 n = .ok [n / 256, n % 256] := by
  simp [pack16, h]

theorem unpack16_div_mod (n : Nat) :
    unpack16 (n / 256) (n % 256) = n := by
  simp [unpack16]
  omega

theorem to_wire_rrq (f m : List Nat) :
    (TftpPacket.rrq f m).to_wire = .ok ([0, 1] ++ f ++ [0] ++ m ++ [0]) := rfl

theorem to_wire_wrq (f m : List Nat) :
    (TftpPacket.wrq f m).to_wire = .ok ([0, 2] ++ f ++ [0] ++ m ++ [0]) := rfl

theorem to_wire_data {b : Nat} (d : List Nat) (hb : b < 65536) :
    (TftpPacket.data b d).to_wire = .ok ([0, 3] ++ [b / 256, b % 256] ++ d) := by
  show pack16 b >>= (fun bb => Except.ok ([0, 3] ++ bb ++ d)) = _
  rw [pack16_lt hb]
  rfl

theorem to_wire_ack {b : Nat} (hb : b < 65536) :
    (TftpPacket.ack b).to_wire = .ok ([0, 4] ++ [b / 256, b % 256]) := by
  show pack16 b >>= (fun bb => Except.ok ([0, 4] ++ bb)) = _
  rw [pack16_lt hb]
  rfl

theorem to_wire_error_bytes {c : Nat} (m : List Nat) (hc : c < 65536) :
    (TftpPacket.error c (.bytes m)).to_wire
      = .ok ([0, 5] ++ [c / 256, c % 256] ++ m ++ [0]) := by
  show pack16 c >>=
      (fun cb => match PyBytesOrStr.bytes m with
        | .bytes mm => Except.ok ([0, 5] ++ cb ++ mm ++ [0])
        | .str _ => Except.error .typeError) = _
  rw [pack16_lt hc]
  rfl

theorem create_op1 (payload : List Nat) :
    create (0 :: 1 :: payload) = RQPacket_from_wire 1 payload := rfl

theorem create_op2 (payload : List Nat) :
    create (0 :: 2 :: payload) = RQPacket_from_wire 2 payload := rfl

theorem create_op3 (payload : List Nat) :
    create (0 :: 3 :: payload) = DataPacket_from_wire payload := rfl

theorem create_op4 (payload : List Nat) :
    create (0 :: 4 :: payload) = ACKPacket_from_wire payload := rfl

theorem create_op5 (payload : List Nat) :
    create (0 :: 5 :: payload) = ErrorPacket_from_wire payload := rfl

/-- C1: Packet codec round-trip: for every well-formed packet of any of
the five variants, `to_wire` succeeds and `PacketFactory.create` parses the
resulting bytes back to a field-for-field equal packet. -/
theorem packet_roundtrip (p : TftpPacket) (h : wellFormed p = true) :
    ∃ w, p.to_wire = .ok w ∧ create w = .ok p := by
  cases p with
  | rrq f m =>
    simp only [wellFormed, Bool.decide_or, Bool.or_eq_true, decide_eq_true_eq,
      Bool.and_eq_true, List.all_eq_true] at h
    obtain ⟨hf, hm⟩ := h
    have hf0 : ∀ b ∈ f, b ≠ 0 := fun b hb => (hf b hb).1
    have hm0 : ∀ b ∈ m, b ≠ 0 := by
      rcases hm with hm | hm <;> subst hm <;> decide
    have hml : pyLower m = m := by
      rcases hm with hm | hm <;> subst hm <;> decide
    refine ⟨[0, 1] ++ f ++ [0] ++ m ++ [0], to_wire_rrq f m, ?_⟩
    have hl : ([0, 1] ++ f ++ [0] ++ m ++ [0] : List Nat)
        = 0 :: 1 :: (f ++ 0 :: (m ++ [0])) := by simp
    rw [hl, create_op1]
    simp only [RQPacket_from_wire, pySplit_sepfree_append hf0,
      pySplit_sepfree_append hm0, RQPacket_init, hml]
    rw [if_pos hm]
    rfl
  | wrq f m =>
    simp only [wellFormed, Bool.decide_or, Bool.or_eq_true, decide_eq_true_eq,
      Bool.and_eq_true, List.all_eq_true] at h
    obtain ⟨hf, hm⟩ := h
    have hf0 : ∀ b ∈ f, b ≠ 0 := fun b hb => (hf b hb).1
    have hm0 : ∀ b ∈ m, b ≠ 0 := by
      rcases hm with hm | hm <;> subst hm <;> decide
    have hml : pyLower m = m := by
      rcases hm with hm | hm <;> subst hm <;> decide
    refine ⟨[0, 2] ++ f ++ [0] ++ m ++ [0], to_wire_wrq f m, ?_⟩
    have hl : ([0, 2] ++ f ++ [0] ++ m ++ [0] : List Nat)
        = 0 :: 2 :: (f ++ 0 :: (m ++ [0])) := by simp
    rw [hl, create_op2]
    simp only [RQPacket_from_wire, pySplit_sepfree_append hf0,
      pySplit_sepfree_append hm0, RQPacket_init, hml]
    rw [if_pos hm]
    rfl
  | data b d =>
    simp only [wellFormed, Bool.and_eq_true, decide_eq_true_eq] at h
    obtain ⟨hb, hlen, -⟩ := h
    refine ⟨[0, 3] ++ [b / 256, b % 256] ++ d, to_wire_data d hb, ?_⟩
    have hl : ([0, 3] ++ [b / 256, b % 256] ++ d : List Nat)
        = 0 :: 3 :: (b / 256 :: b % 256 :: d) := by simp
    rw [hl, create_op3]
    simp only [DataPacket_from_wire, DataPacket_init, unpack16_div_mod]
    rw [if_neg (by omega)]
  | ack b =>
    simp only [wellFormed, decide_eq_true_eq] at h
    refine ⟨[0, 4] ++ [b / 256, b % 256], to_wire_ack h, ?_⟩
    have hl : ([0, 4] ++ [b / 256, b % 256] : List Nat)
        = 0 :: 4 :: (b / 256 :: b % 256 :: []) := by simp
    rw [hl, create_op4]
    simp only [ACKPacket_from_wire, unpack16_div_mod]
  | error c msg =>
    cases msg with
    | str s => simp [wellFormed] at h
    | bytes m =>
      simp only [wellFormed, Bool.and_eq_true, decide_eq_true_eq,
        List.all_eq_true] at h
      obtain ⟨hc, hm⟩ := h
      have hm0 : ∀ b ∈ m, b ≠ 0 := fun b hb => (hm b hb).1
      refine ⟨[0, 5] ++ [c / 256, c % 256] ++ m ++ [0],
        to_wire_error_bytes m (by omega), ?_⟩
      have hl : ([0, 5] ++ [c / 256, c % 256] ++ m ++ [0] : List Nat)
          = 0 :: 5 :: (c / 256 :: c % 256 :: (m ++ [0])) := by simp
      rw [hl, create_op5]
      simp only [ErrorPacket_from_wire, pySplit_sepfree_append hm0,
        unpack16_div_mod, List.headI, ErrorPacket_init]
      rw [if_pos hc]

/-- C1 witness: a concrete well-formed RRQ packet round-trips. -/
theorem packet_roundtrip_witness :
    wellFormed (.rrq (bytesOfAscii "file") (bytesOfAscii "octet")) = true ∧
      ∃ w, TftpPacket.to_wire (.rrq (bytesOfAscii "file") (bytesOfAscii "octet"))
            = .ok w ∧
          create w = .ok (.rrq (bytesOfAscii "file") (bytesOfAscii "octet")) :=
  ⟨by decide, packet_roundtrip _ (by decide)⟩

/-! ## file_rw.py -/

/-- The transfer mode string held by `TftpFileIO.mode`.  The session only
ever constructs readers/writers with `'netascii'` or `'octet'` (the
`RQPacket` constructor rejects anything else). -/
inductive TransferMode
  | netascii
  | octet
deriving DecidableEq

/-- `TftpFileReader` state: the file handle (its unread byte suffix plus
the `closed` flag) and the two buffers `_bytes` and `netascii_bytes`. -/
structure ReaderState where
  mode : TransferMode
  /-- Bytes of the underlying file not yet returned by `file.read`. -/
  fileRest : List Nat
  /-- Whether `self._file` has been closed. -/
  closed : Bool
  /-- `self._bytes`, the raw bytes buffer. -/
  bytes : List Nat
  /-- `self.netascii_bytes`, the encoded carry buffer. -/
  netascii_bytes : List Nat
deriving DecidableEq

/-- `TftpFileReader.__init__`: open the file, empty buffers. -/
def ReaderState.init (mode : TransferMode) (content : List Nat) : ReaderState :=
  { mode := mode, fileRest := content, closed := false,
    bytes := [], netascii_bytes := [] }

/-- `TftpFileReader.read_next_bytes`: raise `TftpIOError` on a closed
file; otherwise read up to 512 bytes into `_bytes`, closing the file when
fewer than 512 came back. -/
def read_next_bytes (st : ReaderState) : Except PyExc ReaderState :=
  if st.closed then .error .tftpIOError
  else
    let chunk := st.fileRest.take 512
    .ok { st with bytes := chunk, fileRest := st.fileRest.drop 512,
                  closed := chunk.length < 512 }

/-- The `while len(self.netascii_bytes) < self.block_size` loop of
`get_next_block_netascii`, with the file-handle state passed explicitly.
The loop always terminates (each iteration either consumes file bytes,
closes the file, or exits); the structural `fuel` argument is supplied by
the caller as `fileRest.length + 2`, which bounds the iteration count, so
the out-of-fuel branch is unreachable. -/
def na_loop (nl : LineSep) :
    Nat → List Nat → Bool → List Nat → Except PyExc (List Nat × List Nat × Bool)
  | 0, _, _, _ => .error .tftpIOError
  | fuel + 1, fileRest, closed, na =>
    if na.length < 512 then
      if closed then
        -- read_next_bytes raises TftpIOError; `break` with a non-empty
        -- buffer, re-raise otherwise
        if na ≠ [] then .ok (na, fileRest, closed) else .error .tftpIOError
      else
        let chunk := fileRest.take 512
        na_loop nl fuel (fileRest.drop 512) (chunk.length < 512)
          (na ++ encode nl chunk)
    else .ok (na, fileRest, closed)

/-- `TftpFileReader.get_next_block_netascii`: top up the carry buffer from
the file until it holds a full block or the file is exhausted, then slice
off the first 512 bytes. -/
def get_next_block_netascii (nl : LineSep) (st : ReaderState) :
    Except PyExc (List Nat × ReaderState) := do
  let na0 := st.netascii_bytes ++ encode nl st.bytes
  let (na, rest, closed) ← na_loop nl (st.fileRest.length + 2) st.fileRest st.closed na0
  .ok (na.take 512,
    { st with fileRest := rest, closed := closed, bytes := [],
              netascii_bytes := na.drop 512 })

/-- `TftpFileReader.get_next_block_octet`: read the next raw chunk and
return it. -/
def get_next_block_octet (st : ReaderState) :
    Except PyExc (List Nat × ReaderState) := do
  let st' ← read_next_bytes st
  .ok (st'.bytes, { st' with bytes := [] })

/-- `TftpFileReader.get_next_block`: dispatch on the transfer mode. -/
def get_next_block (nl : LineSep) (st : ReaderState) :
    Except PyExc (List Nat × ReaderState) :=
  match st.mode with
  | .netascii => get_next_block_netascii nl st
  | .octet => get_next_block_octet st

/-- `TftpFileWriter` state: the write handle (bytes written so far plus
the `closed` flag). -/
structure WriterState where
  mode : TransferMode
  closed : Bool
  /-- Bytes written to the destination file so far. -/
  content : List Nat
deriving DecidableEq

/-- `TftpFileWriter.__init__`: open (truncate) the destination file. -/
def WriterState.init (mode : TransferMode) : WriterState :=
  { mode := mode, closed := false, content := [] }

/-- `TftpFileWriter.write_next_block`: raise `TftpIOError` on a closed
file; decode the block first in netascii mode; close after a short
block. -/
def write_next_block (nl : LineSep) (st : WriterState) (data : List Nat) :
    Except PyExc WriterState :=
  if st.closed then .error .tftpIOError
  else
    let out := match st.mode with
      | .netascii => decode nl data
      | .octet => data
    .ok { st with content := st.content ++ out,
                  closed := data.length < 512 }

/-- Drive a reader: collect the blocks of successive `get_next_block`
calls until one raises (the test helper `read_whole_file` loops the same
way). -/
def read_all (nl : LineSep) : Nat → ReaderState → List (List Nat)
  | 0, _ => []
  | fuel + 1, st =>
    match get_next_block nl st with
    | .ok (b, st') => b :: read_all nl fuel st'
    | .error _ => []

/-- Feed a list of blocks to a writer in order. -/
def write_all (nl : LineSep) (st : WriterState) :
    List (List Nat) → Except PyExc WriterState
  | [] => .ok st
  | b :: bs => do
    let st' ← write_next_block nl st b
    write_all nl st' bs

/-- C2 (code bug): a netascii reader over the empty file raises
`TftpIOError` on the very first `get_next_block` call instead of
returning the empty final block: the first `read_next_bytes` returns no
bytes and closes the file, the next loop iteration re-raises because the
carry buffer is empty.  The same happens after the last full block
whenever the encoded file length is an exact multiple of 512, so the
reader never emits the final short block the claim requires (octet mode,
by contrast, does return the empty final block). -/
theorem reader_netascii_no_final_short_block :
    get_next_block .lf (ReaderState.init .netascii []) = .error .tftpIOError ∧
      get_next_block .lf (ReaderState.init .octet []) = .ok ([],
        { mode := .octet, fileRest := [], closed := true, bytes := [],
          netascii_bytes := [] }) := by
  constructor <;> rfl

set_option maxRecDepth 20000 in
/-- C3 (code bug): the writer does not invert the reader when a netascii
escape sequence straddles a block boundary.  For the 512-byte file
`F = 'a' * 511 ++ [LF]` (LF host newline) the reader emits the blocks
`['a' * 511 ++ [CR], [LF]]`; `write_next_block` decodes each block
independently, so the reconstructed file is `'a' * 511 ++ [CR, LF] ≠ F`. -/
theorem writer_not_inverse_of_reader :
    read_all .lf 4 (ReaderState.init .netascii (List.replicate 511 97 ++ [10]))
        = [List.replicate 511 97 ++ [13], [10]] ∧
      write_all .lf (WriterState.init .netascii)
          [List.replicate 511 97 ++ [13], [10]]
        = .ok { mode := .netascii, closed := true,
                content := List.replicate 511 97 ++ [13, 10] } ∧
      List.replicate 511 97 ++ [13, 10] ≠ List.replicate 511 97 ++ [10] := by
  refine ⟨rfl, rfl, by decide⟩

/-! ## session.py

The session thread is modelled one `run()`-loop iteration at a time.
`session_step` handles an incoming datagram (with its sender address, as
delivered by `recvfrom`), `timeout_step` a `socket.timeout`.  A `.error`
result models an exception escaping `run()` — the thread dies; nothing
is sent.  Addresses are `(ip, port)` pairs of naturals. -/

/-- A network address, `(ip, port)`. -/
def Address : Type := Nat × Nat
deriving instance DecidableEq for Address

/-- Filesystem oracle for the path operations of `respond_to_RRQ` /
`respond_to_WRQ`: `os.path.realpath` (symlink/`..` canonicalisation),
`os.path.isfile`, the two `os.access` checks, and the byte contents a
successful `open(path, 'rb')` would serve.  `accessWdir path` stands for
`os.access(os.path.split(path)[0], os.W_OK)`, keyed here by the full
path. -/
structure Fs where
  realpath : String → String
  isfile : String → Bool
  accessR : String → Bool
  accessWdir : String → Bool
  content : String → List Nat

/-- `bytes.decode()` restricted to ASCII byte strings (the embedding does
not model non-ASCII UTF-8 decoding). -/
def pyDecodeAscii (l : List Nat) : String :=
  String.mk (l.map Char.ofNat)

/-- Python `str.startswith(pre)`, by character list (the `String`
primitive is not kernel-reducible). -/
def pyStartsWith (s pre : String) : Bool :=
  List.isPrefixOf pre.data s.data

/-- Python `str.strip('/')`: drop leading and trailing `'/'`
characters. -/
def pyStripSlashes (s : String) : String :=
  String.mk (((s.data.dropWhile (· = '/')).reverse.dropWhile (· = '/')).reverse)

/-- `os.path.join(root, sub)` for a `sub` that is not absolute (the
filename has just been stripped of leading slashes). -/
def pyJoin (root sub : String) : String :=
  if root.data.getLast? = some '/' then root ++ sub else root ++ "/" ++ sub

/-- The transfer mode of a parsed request's mode bytes.  `RQPacket`
construction guarantees the bytes are `b'netascii'` or `b'octet'`. -/
def modeOfBytes (m : List Nat) : TransferMode :=
  if m = bytesOfAscii "netascii" then .netascii else .octet

/-- `TftpSessionThread` state.  The transfer socket itself (and its TID,
an OS-chosen port) is not modelled; what matters is that every
`send_packet` goes to `remote_address`. -/
structure SessionState where
  /-- `self.remote_address`, the peer from the initial datagram. -/
  remote_address : Address
  /-- `self.initial_data`, consumed by the first `read_new_data`. -/
  initial_data : Option (List Nat)
  /-- `self.tftp_root` (canonical path of the served directory). -/
  tftp_root : String
  /-- `self.allow_write`. -/
  allow_write : Bool
  /-- `self.blockn`. -/
  blockn : Nat
  /-- `self.last_sent`. -/
  last_sent : Option TftpPacket
  /-- `self.last_received`. -/
  last_received : Option TftpPacket
  /-- `self.retransmissions`. -/
  retransmissions : Nat
  /-- `self.file_reader`. -/
  file_reader : Option ReaderState
  /-- `self.file_writer`. -/
  file_writer : Option WriterState
deriving DecidableEq

/-- `TftpSessionThread.__init__` (socket/TID setup elided). -/
def SessionState.init (remote : Address) (root : String) (allow : Bool)
    (initial : List Nat) : SessionState :=
  { remote_address := remote, initial_data := some initial,
    tftp_root := root, allow_write := allow, blockn := 0,
    last_sent := none, last_received := none, retransmissions := 0,
    file_reader := none, file_writer := none }

/-- `self.timeout_values = (3, 5, 8)`. -/
def timeout_values : List Nat := [3, 5, 8]

/-- `ErrorPacket(code)` as the session builds it: no explicit message, so
the packet stores the default `errors[code]` message — a `str`.  The
constructor's code check passes for the fixed codes the session uses. -/
def sessionError (code : Nat) : TftpPacket :=
  .error code (.str (defaultErrorMsg code))

/-- `TftpSessionThread.read_new_data`: the first call consumes
`initial_data`; afterwards `recvfrom(bufsize)[0]` — note the `[0]`: the
sender's address in the second tuple component is discarded, so the
returned data is all the session ever sees of a datagram. -/
def read_new_data (st : SessionState) (incoming : List Nat × Address) :
    List Nat × SessionState :=
  match st.initial_data with
  | some d => (d, { st with initial_data := none })
  | none => (incoming.1, st)

/-- `TftpSessionThread.send_packet`: record `last_sent`; `None` means
send nothing; otherwise serialize and send to `remote_address` (always the
original peer — never the datagram's sender). -/
def send_packet (st : SessionState) (packet : Option TftpPacket) :
    Except PyExc (SessionState × Option (List Nat × Address)) :=
  let st' := { st with last_sent := packet }
  match packet with
  | none => .ok (st', none)
  | some p =>
    match p.to_wire with
    | .ok w => .ok (st', some (w, st'.remote_address))
    | .error e => .error e

/-- `TftpSessionThread.respond_to_RRQ`.  Note the two checks share one
branch: a path outside the root draws `ERR_FILE_NOT_FOUND`, not
`ERR_ACCESS_VIOLATION`.  The reader is created and its first block read
before `blockn` is set to 1; a `TftpIOError` from `get_next_block` (empty
netascii file) escapes uncaught. -/
def respond_to_RRQ (env : Fs) (nl : LineSep) (st : SessionState)
    (filename mode : List Nat) :
    Except PyExc (SessionState × Option TftpPacket) :=
  let fname := pyDecodeAscii filename
  let path := env.realpath (pyJoin st.tftp_root (pyStripSlashes fname))
  if ¬env.isfile path ∨ ¬pyStartsWith path st.tftp_root then
    .ok (st, some (sessionError 1))
  else if ¬env.accessR path then
    .ok (st, some (sessionError 2))
  else do
    let r := ReaderState.init (modeOfBytes mode) (env.content path)
    let (d, r') ← get_next_block nl r
    .ok ({ st with file_reader := some r', blockn := 1 },
      some (.data 1 d))

/-- `TftpSessionThread.respond_to_WRQ`: refuse unless writes are allowed,
the path is inside the root and the containing directory writable. -/
def respond_to_WRQ (env : Fs) (st : SessionState)
    (filename mode : List Nat) :
    Except PyExc (SessionState × Option TftpPacket) :=
  let fname := pyDecodeAscii filename
  let path := env.realpath (pyJoin st.tftp_root (pyStripSlashes fname))
  if ¬(st.allow_write ∧ pyStartsWith path st.tftp_root ∧ env.accessWdir path) then
    .ok (st, some (sessionError 2))
  else
    .ok ({ st with file_writer := some (WriterState.init (modeOfBytes mode)),
                   blockn := 1 },
      some (.ack 0))

/-- `TftpSessionThread.respond_to_Data`.  The `except IOError` clause
around `write_next_block` does not catch `TftpIOError` (which subclasses
`Exception`, not `IOError`), so a write on a closed handle escapes; the
`ERR_DISK_FULL` reply would only follow an OS-level `IOError`, which the
pure file model cannot produce. -/
def respond_to_Data (nl : LineSep) (st : SessionState)
    (blockn : Nat) (dat : List Nat) :
    Except PyExc (SessionState × Option TftpPacket) :=
  if blockn > st.blockn then
    .ok (st, some (sessionError 5))
  else if blockn = st.blockn then
    match st.file_writer with
    | none => .error .attributeError
    | some w =>
      match write_next_block nl w dat with
      | .error e => .error e
      | .ok w' =>
        .ok ({ st with file_writer := some w', blockn := st.blockn + 1 },
          some (.ack blockn))
  else
    .ok (st, some (.ack blockn))

/-- `TftpSessionThread.respond_to_ACK`.  On the expected block number the
session increments `blockn` (a plain Python `int` — no 16-bit wraparound)
and sends the next file block. -/
def respond_to_ACK (nl : LineSep) (st : SessionState) (blockn : Nat) :
    Except PyExc (SessionState × Option TftpPacket) :=
  if blockn = st.blockn then
    if (match st.last_sent with
        | some p => (match p with | .data _ _ => true | _ => false) && p.is_last
        | none => false) then
      .ok (st, none)
    else
      let st' := { st with blockn := st.blockn + 1 }
      match st'.file_reader with
      | none => .error .attributeError
      | some r =>
        match get_next_block nl r with
        | .error e => .error e
        | .ok (d, r') =>
          .ok ({ st' with file_reader := some r' }, some (.data st'.blockn d))
  else if blockn < st.blockn then
    .ok (st, st.last_sent)
  else
    .ok (st, some (sessionError 5))

/-- `TftpSessionThread.respond_to_Error`: reply `unknown-tid`. -/
def respond_to_Error (st : SessionState) :
    Except PyExc (SessionState × Option TftpPacket) :=
  .ok (st, some (sessionError 5))

/-- `TftpSessionThread.respond_to_data` (lower-case: the raw-datagram
entry point): parse, record `last_received`, dispatch through
`respond_map`.  Only `PacketParseError` (and subclasses) is caught and
answered with `Error(illegal-operation)`; any other exception — the
`TypeError` from the invalid-opcode path included — escapes. -/
def respond_to_data (env : Fs) (nl : LineSep) (st : SessionState)
    (data : List Nat) : Except PyExc (SessionState × Option TftpPacket) :=
  match create data with
  | .error (.packetParse _) => .ok (st, some (sessionError 4))
  | .error e => .error e
  | .ok packet =>
    let st := { st with last_received := some packet }
    match packet with
    | .rrq f m => respond_to_RRQ env nl st f m
    | .wrq f m => respond_to_WRQ env st f m
    | .data b d => respond_to_Data nl st b d
    | .ack b => respond_to_ACK nl st b
    | .error _ _ => respond_to_Error st

/-- One `run()`-loop iteration in which a datagram arrives (no timeout):
read it, respond, send, reset the retransmission counter; the loop breaks
— the session terminates — when `last_sent` is an `ErrorPacket` or
`None`.  The returned datagram, if any, goes to `remote_address`. -/
def session_step (env : Fs) (nl : LineSep) (st : SessionState)
    (incoming : List Nat × Address) :
    Except PyExc (SessionState × Option (List Nat × Address) × Bool) := do
  let (data, st) := read_new_data st incoming
  let (st, resp) ← respond_to_data env nl st data
  let (st, out) ← send_packet st resp
  let st := { st with retransmissions := 0 }
  let terminated := match st.last_sent with
    | none => true
    | some (.error _ _) => true
    | _ => false
  .ok (st, out, terminated)

/-- `TftpSessionThread.must_retransmit`: give up once the timeout schedule
is exhausted; never retransmit the ACK of a final data block. -/
def must_retransmit (st : SessionState) : Bool :=
  if st.retransmissions ≥ timeout_values.length then false
  else
    match st.last_received with
    | some (.data _ d) => ¬(d.length < 512)
    | _ => true

/-- One `run()`-loop iteration in which the receive times out: the waited
timeout is `timeout_values[retransmissions]` (an `IndexError` if the
index ever ran past the schedule); on timeout the counter is incremented,
then either the loop breaks or `resend_last` retransmits `last_sent`.
Returns the waited timeout with the step result. -/
def timeout_step (st : SessionState) :
    Except PyExc (Nat × SessionState × Option (List Nat × Address) × Bool) :=
  match timeout_values.get? st.retransmissions with
  | none => .error .indexError
  | some t =>
    let st := { st with retransmissions := st.retransmissions + 1 }
    if ¬must_retransmit st then
      .ok (t, st, none, true)
    else
      match send_packet st st.last_sent with
      | .ok (st, out) => .ok (t, st, out, false)
      | .error e => .error e

/-- The trace of a session whose peer never sends again: each entry is the
timeout waited and whether a retransmission was sent, ending with the
iteration on which the loop breaks (or an escaping exception). -/
def timeout_trace : Nat → SessionState → List (Nat × Bool)
  | 0, _ => []
  | fuel + 1, st =>
    match timeout_step st with
    | .error _ => []
    | .ok (t, st', out, terminated) =>
      (t, out.isSome) :: (if terminated then [] else timeout_trace fuel st')

/-! ## Claim theorems over the session model -/

/-- A filesystem oracle with nothing in it. -/
def envEmpty : Fs :=
  { realpath := id, isfile := fun _ => false, accessR := fun _ => false,
    accessWdir := fun _ => false, content := fun _ => [] }

/-- A session state past its initial datagram, root `/srv/tftp`, peer
`(9, 2000)`. -/
def stBase : SessionState :=
  { remote_address := (9, 2000), initial_data := none,
    tftp_root := "/srv/tftp", allow_write := true, blockn := 0,
    last_sent := none, last_received := none, retransmissions := 0,
    file_reader := none, file_writer := none }

/-- The session's behaviour never depends on the sender address of an
incoming datagram: `read_new_data` keeps only `recvfrom(...)[0]`. -/
theorem session_step_ignores_sender (env : Fs) (nl : LineSep)
    (st : SessionState) (d : List Nat) (s1 s2 : Address) :
    session_step env nl st (d, s1) = session_step env nl st (d, s2) := rfl

/-- A read session mid-transfer: `Data(1)` (512 bytes) sent, octet reader
with 300 bytes left. -/
def st4 : SessionState :=
  { stBase with
    blockn := 1,
    last_sent := some (.data 1 (List.replicate 512 97)),
    last_received := some (.rrq (bytesOfAscii "f") (bytesOfAscii "octet")),
    file_reader := some ({
      mode := .octet, fileRest := List.replicate 300 98,
      closed := false, bytes := [], netascii_bytes := [] } : ReaderState) }

/-- The state `st4` reaches after processing `Ack(1)`. -/
def st4after : SessionState :=
  { stBase with
    blockn := 2,
    last_sent := some (.data 2 (List.replicate 300 98)),
    last_received := some (.ack 1),
    file_reader := some ({
      mode := .octet, fileRest := [],
      closed := true, bytes := [], netascii_bytes := [] } : ReaderState) }

set_option maxRecDepth 4000 in
/-- C4 (code bug): no TID isolation.  An `Ack(1)` arriving from the
foreign port 7777 (original peer port 2000) is processed exactly as if it
came from the peer: the session advances to block 2 and sends `Data(2)` —
to the original peer, not to the foreign sender; no `Error(unknown-tid)`
is produced and the transfer state changes. -/
theorem session_no_tid_isolation :
    session_step envEmpty .lf st4 ([0, 4, 0, 1], (9, 7777))
        = .ok (st4after,
            some (([0, 3, 0, 2] ++ List.replicate 300 98), ((9, 2000) : Address)),
            false) ∧
      ((9, 2000) : Address) ≠ (9, 7777) ∧
      st4after.blockn ≠ st4.blockn ∧
      (∀ c msg, st4after.last_sent ≠ some (.error c msg)) := by
  refine ⟨rfl, by decide, by decide, ?_⟩
  intro c msg h
  simp [st4after, stBase] at h

/-- C6 (code bug): a parse failure never results in an `Error` packet on
the wire.  For a 2-byte datagram with opcode 6, `raise InvalidOpcodeError`
raises the bare class, and its instantiation (missing the required
`opcode` argument) raises `TypeError`, which `except PacketParseError`
does not catch — the thread dies.  For a caught failure (1-byte datagram),
`respond_to_data` does produce `ErrorPacket(illegal-operation)`, but its
default message is a `str`, so `to_wire`'s `b''.join` raises `TypeError`
inside `send_packet` — again the thread dies and nothing is sent. -/
theorem parse_failure_not_answered :
    respond_to_data envEmpty .lf stBase [0] = .ok (stBase, some (sessionError 4)) ∧
      (sessionError 4).to_wire = .error .typeError ∧
      session_step envEmpty .lf stBase ([0], (9, 7777)) = .error .typeError ∧
      create [0, 6] = .error .typeError ∧
      session_step envEmpty .lf stBase ([0, 6], (9, 7777)) = .error .typeError :=
  ⟨rfl, rfl, rfl, rfl, rfl⟩

/-- Oracle for the path-escape scenario: `/srv/tftp/../etc/passwd`
canonicalises to `/etc/passwd`, which exists, is a regular file and is
readable. -/
def env7 : Fs :=
  { realpath := fun p =>
      if p = "/srv/tftp/../etc/passwd" then "/etc/passwd" else p,
    isfile := fun _ => true, accessR := fun _ => true,
    accessWdir := fun _ => true, content := fun _ => [] }

/-- C7 counterexample: an RRQ for `../etc/passwd` (canonical path outside
the root) is answered with `Error(file-not-found)` (code 1), not with
`Error(access-violation)` (code 2) as the claim states. -/
theorem rrq_escape_not_access_violation :
    respond_to_RRQ env7 .lf stBase
        (bytesOfAscii "../etc/passwd") (bytesOfAscii "octet")
        = .ok (stBase, some (sessionError 1)) ∧
      sessionError 1 ≠ sessionError 2 := by
  refine ⟨?_, by decide⟩
  rfl

/-- C7 (amended): a request whose resolved path fails the
`path.startswith(tftp_root)` check is rejected with no file opened and the
session state unchanged — with `Error(file-not-found)` for an RRQ and
`Error(access-violation)` for a WRQ. -/
theorem path_escape_rejected (env : Fs) (nl : LineSep) (st : SessionState)
    (filename mode : List Nat)
    (h : pyStartsWith (env.realpath (pyJoin st.tftp_root
        (pyStripSlashes (pyDecodeAscii filename)))) st.tftp_root = false) :
    respond_to_RRQ env nl st filename mode = .ok (st, some (sessionError 1)) ∧
      respond_to_WRQ env st filename mode = .ok (st, some (sessionError 2)) := by
  constructor
  · simp only [respond_to_RRQ]
    rw [if_pos (Or.inr (by simp [h]))]
  · simp only [respond_to_WRQ]
    rw [if_pos (fun hall => absurd hall.2.1 (by simp [h]))]

/-- C7 witness: the amended statement at the concrete escape scenario. -/
theorem path_escape_rejected_witness :
    respond_to_RRQ env7 .lf stBase (bytesOfAscii "../etc/passwd")
        (bytesOfAscii "octet") = .ok (stBase, some (sessionError 1)) ∧
      respond_to_WRQ env7 stBase (bytesOfAscii "../etc/passwd")
        (bytesOfAscii "octet") = .ok (stBase, some (sessionError 2)) :=
  path_escape_rejected env7 .lf stBase _ _ (by decide)

/-- When `last_received` is not a `DataPacket`, `must_retransmit` is
exactly the budget check `retransmissions < len(timeout_values)`. -/
theorem must_retransmit_of_not_data {st : SessionState}
    (h2 : ∀ bb dd, st.last_received ≠ some (.data bb dd)) :
    must_retransmit st = decide (st.retransmissions < timeout_values.length) := by
  unfold must_retransmit
  by_cases hge : st.retransmissions ≥ timeout_values.length
  · simp [hge, Nat.not_lt.mpr hge]
  · rw [if_neg hge]
    have hlt := Nat.lt_of_not_le hge
    rcases hlr : st.last_received with _ | p
    · simp [hlt]
    · cases p with
      | data bb dd => exact absurd hlr (h2 bb dd)
      | rrq f m => simp [hlt]
      | wrq f m => simp [hlt]
      | ack bb => simp [hlt]
      | error c m => simp [hlt]

/-- C8 (amended): with a fresh retransmission counter, a serializable
`Data` packet as `last_sent` and a non-Data `last_received` (the read
transfer's RRQ), the timeout schedule runs: wait 3s and resend, wait 5s
and resend, wait 8s and terminate without resending — so the packet is
transmitted `1 + 2 = 3` times in total, not 4. -/
theorem retransmission_schedule (st : SessionState) (b : Nat) (d : List Nat)
    (h0 : st.retransmissions = 0)
    (h1 : st.last_sent = some (.data b d))
    (hb : b < 65536)
    (h2 : ∀ bb dd, st.last_received ≠ some (.data bb dd)) :
    timeout_trace 3 st = [(3, true), (5, true), (8, false)] := by
  have hw := to_wire_data d hb
  rcases hlr : st.last_received with _ | p
  · simp [timeout_trace, timeout_step, must_retransmit, send_packet,
      timeout_values, h0, h1, hlr, hw]
  · cases p with
    | data bb dd => exact absurd hlr (h2 bb dd)
    | rrq f m =>
      simp [timeout_trace, timeout_step, must_retransmit, send_packet,
        timeout_values, h0, h1, hlr, hw]
    | wrq f m =>
      simp [timeout_trace, timeout_step, must_retransmit, send_packet,
        timeout_values, h0, h1, hlr, hw]
    | ack bb =>
      simp [timeout_trace, timeout_step, must_retransmit, send_packet,
        timeout_values, h0, h1, hlr, hw]
    | error c m =>
      simp [timeout_trace, timeout_step, must_retransmit, send_packet,
        timeout_values, h0, h1, hlr, hw]

/-- The retransmission scenario of the claim: a one-block read transfer
(`Data(1)` sent after the RRQ), peer silent. -/
def st8 : SessionState :=
  { stBase with
    blockn := 1,
    last_sent := some (.data 1 (bytesOfAscii "hi")),
    last_received := some (.rrq (bytesOfAscii "f") (bytesOfAscii "octet")),
    file_reader := some ({
      mode := .octet, fileRest := [], closed := true,
      bytes := [], netascii_bytes := [] } : ReaderState) }

/-- C8 counterexample: in the claim's scenario the server transmits
`Data(1)` 3 times in total (the original send plus resends after the 3s
and 5s timeouts; after the 8s timeout it terminates without resending),
not 4. -/
theorem retransmission_total_not_four :
    timeout_trace 10 st8 = [(3, true), (5, true), (8, false)] ∧
      1 + ((timeout_trace 10 st8).filter (fun e => e.2)).length = 3 ∧
      (3 : Nat) ≠ 4 := ⟨rfl, rfl, by decide⟩

/-- C8 witness: the amended schedule at the concrete scenario state. -/
theorem retransmission_schedule_witness :
    timeout_trace 3 st8 = [(3, true), (5, true), (8, false)] :=
  retransmission_schedule st8 1 (bytesOfAscii "hi") rfl rfl (by decide)
    (by intro bb dd h; simp [st8, stBase] at h)

/-- A read session that has just sent `Data(65535)` (full block), reader
with 600 bytes left. -/
def st9 : SessionState :=
  { stBase with
    blockn := 65535,
    last_sent := some (.data 65535 (List.replicate 512 97)),
    last_received := some (.ack 65534),
    file_reader := some ({
      mode := .octet, fileRest := List.replicate 600 98,
      closed := false, bytes := [], netascii_bytes := [] } : ReaderState) }

set_option maxRecDepth 4000 in
/-- C9 (code bug): block numbers are plain Python ints, not modular u16.
On `Ack(65535)` the session sets `blockn` to `65535 + 1 = 65536` (where
u16 arithmetic demands wrapping to 0) and builds `Data(65536)`, whose
serialization `struct.pack('!H', 65536)` raises `struct.error` — the
session crashes instead of continuing the transfer across the wrap
boundary. -/
theorem blockn_not_modular :
    respond_to_ACK .lf st9 65535
        = .ok ({ st9 with
              blockn := 65536,
              file_reader := some ({
                mode := .octet,
                fileRest := List.replicate 88 98, closed := false,
                bytes := [], netascii_bytes := [] } : ReaderState) },
            some (.data 65536 (List.replicate 512 98))) ∧
      (TftpPacket.data 65536 (List.replicate 512 98)).to_wire
        = .error .structError ∧
      (65535 + 1) % 2 ^ 16 = 0 ∧ (65536 : Nat) ≠ 0 :=
  ⟨rfl, rfl, by decide, by decide⟩

/-- C10: handling `Data(n, d)` with `n ≠ blockn` writes nothing and
leaves the whole session state (block number and file writer included)
unchanged: a stale `n < blockn` is re-acknowledged with `Ack(n)`, an
out-of-sequence `n > blockn` draws the unknown-TID `Error`. -/
theorem data_wrong_blockn_no_effect (nl : LineSep) (st : SessionState)
    (n : Nat) (d : List Nat) (h : n ≠ st.blockn) :
    respond_to_Data nl st n d
      = .ok (st, some (if n < st.blockn then TftpPacket.ack n
          else sessionError 5)) := by
  unfold respond_to_Data
  rcases Nat.lt_or_ge st.blockn n with hgt | hle
  · rw [if_pos hgt, if_neg (by omega)]
  · have hlt : n < st.blockn := by omega
    rw [if_neg (by omega), if_neg h, if_pos hlt]

/-- C10 witness: a duplicate `Data(0)` at `blockn = 1` is re-acked with
`Ack(0)` and the state is unchanged. -/
theorem data_wrong_blockn_no_effect_witness :
    respond_to_Data .lf { stBase with blockn := 1 } 0 []
      = .ok ({ stBase with blockn := 1 }, some (.ack 0)) := by
  have h := data_wrong_blockn_no_effect .lf { stBase with blockn := 1 } 0 []
    (by decide)
  simpa using h

end Apts
